import Mathlib

/-!
Verification of the GME symbolic derivation engine (gme/equations.py).

The development embeds, shallowly, the parts of the engine that the
specification makes claims about:

* the closed-form real-valued equations stored by the Hamiltonian stages
  (fundamental function, Hamiltonian, ray-velocity and slowness-rate
  components), as functions over the reals with real-exponent powers;
* the root-selection policies (extremal-angle candidates, the tan-beta
  inversion probes, the indicatrix cos-squared-beta probes), as functions
  over explicit candidate data carrying the numerically probed values;
* the configuration-driven control flow of the construction pipeline
  (stage skip guards, diagnostics, the explicit None markers for
  unavailable outputs, and the hard failures), as a state machine over an
  availability record, with exceptions modelled by Except.
-/

namespace GME

/-! ## Real-valued closed forms stored by the derivation (stages 4.4 to 4.6) -/

/-- Right-hand side of Fstar_eqn: the fundamental function
F-star = px^eta * (px^2 + pz^2)^(1/2 - eta/2) * varphi. -/
noncomputable def Fstar_rhs (varphi η px pz : ℝ) : ℝ :=
  px ^ η * (px ^ 2 + pz ^ 2) ^ ((1 : ℝ) / 2 - η / 2) * varphi

/-- Right-hand side of H_eqn: the Hamiltonian
H = px^(2 eta) * (px^2 + pz^2)^(1 - eta) * varphi^2 / 2. -/
noncomputable def H_rhs (varphi η px pz : ℝ) : ℝ :=
  px ^ (2 * η) * (px ^ 2 + pz ^ 2) ^ (1 - η) * varphi ^ 2 / 2

/-- Right-hand side of rdotx_pxpz_eqn: the ray-velocity x component
v^x = px^(2 eta - 1) * (px^2 + pz^2)^(-eta) * (eta pz^2 + px^2) * varphi^2. -/
noncomputable def rdotx_pxpz_rhs (varphi η px pz : ℝ) : ℝ :=
  px ^ (2 * η - 1) * (px ^ 2 + pz ^ 2) ^ (-η) * (η * pz ^ 2 + px ^ 2) * varphi ^ 2

/-- Right-hand side of rdotz_pxpz_eqn: the ray-velocity z component
v^z = -(px^(2 eta) * pz * (eta - 1) * (px^2 + pz^2)^(-eta) * varphi^2). -/
noncomputable def rdotz_pxpz_rhs (varphi η px pz : ℝ) : ℝ :=
  -(px ^ (2 * η) * pz * (η - 1) * (px ^ 2 + pz ^ 2) ^ (-η) * varphi ^ 2)

/-- Right-hand side of tanbeta_pxpz_eqn: tan(beta) = -px/pz. -/
noncomputable def tanbeta_pxpz_rhs (px pz : ℝ) : ℝ := -(px / pz)

/-- Right-hand side of pdotz_pxpz_eqn, exactly as the source builds it:
0 * d(varphi_rx)/drx * (-(tanbeta rhs)) * (H rhs) / varphi_r.
The first factor is the literal integer 0 written in the source; phiFun is
the selected flow-model closure (any of the three variants), varphi_r the
abstract flow-multiplier value appearing in H_eqn. -/
noncomputable def pdotz_pxpz_rhs (phiFun : ℝ → ℝ) (varphi_r η px pz rxv : ℝ) : ℝ :=
  0 * deriv phiFun rxv * (-(tanbeta_pxpz_rhs px pz)) * H_rhs varphi_r η px pz / varphi_r

/-- The erosion-model closure stored as p_varphi_pxpz_eqn (stage 4.4) for
the sine tilt model:
sqrt(px^2 + pz^2) = sqrt(px^2 + pz^2)^eta / (varphi * px^eta). -/
noncomputable def p_varphi_pxpz_holds (varphi η px pz : ℝ) : Prop :=
  Real.sqrt (px ^ 2 + pz ^ 2) =
    Real.sqrt (px ^ 2 + pz ^ 2) ^ η / (varphi * px ^ η)

/-- The closure stored as p_varphi_pxpz_eqn for the tangent tilt model:
with |tan beta| = px/|pz| (after the px >= 0 substitution),
sqrt(px^2 + pz^2) = |pz|^eta / (varphi * px^eta). -/
noncomputable def p_varphi_pxpz_tan_holds (varphi η px pz : ℝ) : Prop :=
  Real.sqrt (px ^ 2 + pz ^ 2) = |pz| ^ η / (varphi * px ^ η)

/-- Right-hand side of Fstar_eqn for the tangent tilt model:
F-star = px^eta * sqrt(px^2 + pz^2) * |pz|^(-eta) * varphi. -/
noncomputable def Fstar_tan_rhs (varphi η px pz : ℝ) : ℝ :=
  px ^ η * Real.sqrt (px ^ 2 + pz ^ 2) * |pz| ^ (-η) * varphi

/-- Right-hand side of H_eqn for the tangent tilt model:
H = px^(2 eta) * (px^2 + pz^2) * |pz|^(-2 eta) * varphi^2 / 2. -/
noncomputable def H_tan_rhs (varphi η px pz : ℝ) : ℝ :=
  px ^ (2 * η) * (px ^ 2 + pz ^ 2) * |pz| ^ (-(2 * η)) * varphi ^ 2 / 2

/-- Right-hand side of rdotx_pxpz_eqn for the tangent tilt model: the
simplified px derivative of the tangent-model Hamiltonian,
v^x = px^(2 eta - 1) * (eta (px^2 + pz^2) + px^2) * |pz|^(-2 eta) * varphi^2. -/
noncomputable def rdotx_tan_pxpz_rhs (varphi η px pz : ℝ) : ℝ :=
  px ^ (2 * η - 1) * (η * (px ^ 2 + pz ^ 2) + px ^ 2) * |pz| ^ (-(2 * η)) * varphi ^ 2

/-- Right-hand side of rdotz_pxpz_eqn for the tangent tilt model: the
simplified pz derivative of the tangent-model Hamiltonian,
v^z = px^(2 eta) * pz * ((1 - eta) pz^2 - eta px^2) * |pz|^(-2 eta - 2) * varphi^2. -/
noncomputable def rdotz_tan_pxpz_rhs (varphi η px pz : ℝ) : ℝ :=
  px ^ (2 * η) * pz * ((1 - η) * pz ^ 2 - η * px ^ 2) * |pz| ^ (-(2 * η + 2)) * varphi ^ 2

/-! ## Configuration (constructor arguments of the Equations class) -/

/-- Tilt-model variant of the erosion model (beta_type in the source). -/
inductive BetaType
  | sin
  | tan
deriving DecidableEq

/-- The three flow-model closures defined by define_varphi_model_eqn. -/
inductive VarphiModel
  | ramp
  | rampflat
  | rampflatmu
deriving DecidableEq

/-- Parameter-substitution mapping passed to the geodesic stages
(the parameters dict of the source). -/
abbrev ParamSub := List (String × ℚ)

/-- Constructor configuration of the Equations class, with the documented
default argument values. -/
structure Config where
  eta : ℚ := 3 / 2
  mu : ℚ := 3 / 4
  betaType : BetaType := BetaType.sin
  varphiType : String := "ramp"
  ibcType : String := "convex-up"
  do_raw : Bool := false
  do_idtx : Bool := false
  do_geodesic : Bool := false
  do_nothing : Bool := false
  parameters : Option ParamSub := none

/-! ## Root-selection policies, over explicit candidate data

The numeric probing that the source performs on symbolic roots is embedded
by giving each candidate root its probed values directly: for each probe
substitution the relevant real and imaginary parts (as rationals) that the
numeric evaluation of that root returns. -/

/-- A stationary-point candidate for beta in define_tanbeta_eqns, recorded
by the real and imaginary parts it takes after substituting the configured
eta (the values tested by the admissibility filter). -/
structure ExtremumCandidate where
  re : ℚ
  im : ℚ
deriving DecidableEq

/-- The warning printed when no real positive stationary-point root is
found but candidates exist. -/
def betaExtremumWarning : String := "Warning: real positive root for beta not found"

/-- The degenerate value 0 recorded when no candidate root exists at all. -/
def extremumSentinel : ExtremumCandidate := { re := 0, im := 0 }

/-- Branch logic of define_tanbeta_eqns on the stationary-point candidates:
keep candidates that are real (im = 0) and positive after eta substitution;
take the first if any; otherwise take the first unfiltered candidate and
print a warning; otherwise record the sentinel 0 (and print nothing).
Returns the recorded value together with the printed diagnostics. -/
def selectBetaExtremum (cands : List ExtremumCandidate) :
    ExtremumCandidate × List String :=
  let rp := cands.filter (fun c => decide (c.im = 0 ∧ 0 < c.re))
  match rp with
  | c :: _ => (c, [])
  | [] =>
    match cands with
    | c :: _ => (c, [betaExtremumWarning])
    | [] => (extremumSentinel, [])

/-- A root of the forward tan-alpha(beta) relation solved for tan(beta) in
define_tanbeta_eqns, recorded by the imaginary part its numeric evaluation
returns at each of the three probe substitutions tan(alpha) = 0, 0.01, 1
(after substituting the configured eta). -/
structure TanbetaRoot where
  im0 : ℚ
  im001 : ℚ
  im1 : ℚ
deriving DecidableEq

/-- The filter the source applies to a tan-beta root: the imaginary part
vanishes at probe 0, or at probe 0.01, or at probe 1 (a disjunction,
tried in that order). -/
def tanbetaRootTest (c : TanbetaRoot) : Bool :=
  decide (c.im0 = 0) || decide (c.im001 = 0) || decide (c.im1 = 0)

/-- Root selection of define_tanbeta_eqns for tanbeta_alpha_eqn: the first
solution passing tanbetaRootTest. -/
def selectTanbetaRoot (solns : List TanbetaRoot) : Option TanbetaRoot :=
  (solns.filter tanbetaRootTest).head?

/-- Root filter as the specification claim words it: the root evaluates to
a real number at the probe values 0, 0.01 and 1 (a conjunction).  Stated
here only to compare with the filter the source implements. -/
def tanbetaRootTestClaim (c : TanbetaRoot) : Bool :=
  decide (c.im0 = 0) && decide (c.im001 = 0) && decide (c.im1 = 0)

/-- Root selection under the claim reading of the filter. -/
def selectTanbetaRootClaim (solns : List TanbetaRoot) : Option TanbetaRoot :=
  (solns.filter tanbetaRootTestClaim).head?

/-- A cos-squared-beta root candidate in define_idtx_fgtx_eqns, recorded by
the real and imaginary parts its numeric evaluation returns at the primary
probe (varphi = 1, pz = -0.01) and at the fallback probe
(varphi = 10, pz = -0.5). -/
structure IdtxRoot where
  im1 : ℚ
  re1 : ℚ
  im2 : ℚ
  re2 : ℚ
deriving DecidableEq

/-- Tolerance used by the numeric admissibility test of the indicatrix
roots (abs of imaginary part below 1e-20). -/
def idtxTol : ℚ := 1 / 10 ^ 20

/-- Admissibility of an indicatrix root at the primary probe
(varphi = 1, pz = -0.01): nearly real and with non-negative real part. -/
def idtx_probe1 (c : IdtxRoot) : Bool := decide (|c.im1| < idtxTol ∧ 0 ≤ c.re1)

/-- Admissibility of an indicatrix root at the fallback probe
(varphi = 10, pz = -0.5). -/
def idtx_probe2 (c : IdtxRoot) : Bool := decide (|c.im2| < idtxTol ∧ 0 ≤ c.re2)

/-- find_cosbetasqrd_root of the source: filter the candidate roots at the
primary probe; if nothing passes, filter at the fallback probe instead. -/
def find_cosbetasqrd_root (solns : List IdtxRoot) : List IdtxRoot :=
  let first := solns.filter idtx_probe1
  if first = [] then solns.filter idtx_probe2 else first

/-! ## Construction pipeline control flow

The availability of each stored equation is tracked per attribute: none is
the explicit not-available marker of the source (a missing or None
attribute), some () records that the stage assigned the attribute.  The
printed degenerate-branch diagnostics are accumulated in a list; hard
failures (raised exceptions) are modelled by Except.error. -/

/-- Availability record for the engine attributes the specification claims
are conditionally produced, plus the accumulated printed diagnostics. -/
structure EqnState where
  varphi_rx_eqn : Option VarphiModel := none
  beta_at_alpha_extremum_eqn : Option Unit := none
  beta_at_alpha_extremum_numerical_eqn : Option Unit := none
  tanbeta_alpha_eqn : Option Unit := none
  gstar_varphi_pxpz_eqn : Option Unit := none
  det_gstar_varphi_pxpz_eqn : Option Unit := none
  g_varphi_pxpz_eqn : Option Unit := none
  gstar_eigen_varphi_pxpz : Option Unit := none
  gstar_eigenvalues : Option Unit := none
  gstar_eigenvectors : Option Unit := none
  pz_cosbeta_varphi_eqn : Option Unit := none
  cosbetasqrd_pz_varphi_solns : Option Unit := none
  cosbetasqrd_pz_varphi_soln : Option Unit := none
  fgtx_cossqrdbeta_pz_varphi_eqn : Option Unit := none
  fgtx_tanbeta_pz_varphi_eqn : Option Unit := none
  fgtx_px_pz_varphi_eqn : Option Unit := none
  idtx_rdotx_pz_varphi_eqn : Option Unit := none
  idtx_rdotz_pz_varphi_eqn : Option Unit := none
  gstar_ij_tanbeta_mat : Option Unit := none
  g_ij_tanbeta_mat : Option Unit := none
  tanbeta_poly_eqn : Option Unit := none
  tanbeta_eqn : Option Unit := none
  gstar_ij_tanalpha_mat : Option Unit := none
  gstar_ij_mat : Option Unit := none
  g_ij_tanalpha_mat : Option Unit := none
  g_ij_mat : Option Unit := none
  g_ij_mat_lambdified : Option Unit := none
  gstar_ij_mat_lambdified : Option Unit := none
  dg_rk_ij_mat : Option Unit := none
  christoffel_ij_k_rx_rdot_lambda : Option Unit := none
  christoffel_ij_k_lambda : Option Unit := none
  geodesic_eqns : Option Unit := none
  vdotx_lambdified : Option Unit := none
  vdotz_lambdified : Option Unit := none
  poly_px_xiv_varphi_eqn : Option Unit := none
  poly_px_xiv0_eqn : Option Unit := none
  pz0_xiv0_eqn : Option Unit := none
  pzpx_unity_eqn : Option Unit := none
  boundary_eqns : Option Unit := none
  rz_initial_eqn : Option Unit := none
  tanbeta_initial_eqn : Option Unit := none
  p_initial_eqn : Option Unit := none
  px_initial_eqn : Option Unit := none
  pz_initial_eqn : Option Unit := none
  diagnostics : List String := []
deriving DecidableEq

/-- The empty equation store created at engine construction. -/
def initState : EqnState := {}

/-- Message of the ValueError raised by define_varphi_model_eqn for an
unrecognized flow-model variant. -/
def unknownFlowModelMsg : String := "Unknown flow model"

/-- Diagnostic printed when define_tanbeta_eqns skips the tan-beta
inversion for the sine model with eta = 1. -/
def tanbetaSkipMsg : String :=
  "Cannot compute all beta equations for sin-beta model and eta=1"

/-- Diagnostic printed when define_g_eqns skips the primal metric and the
eigendecomposition for the sine model with eta = 1. -/
def gSkipMsg : String :=
  "Cannot compute all metric tensor g^ij equations for sin-beta model and eta=1"

/-- Diagnostic printed when the geodesic stages are skipped for the sine
model with eta >= 1. -/
def geodesicSkipMsg : String :=
  "Cannot compute geodesic equations for sin-beta model and eta>=1"

/-- Diagnostic printed when define_idtx_fgtx_eqns skips the indicatrix
outputs for the tan model with eta in the set containing 1/4 and 3/2. -/
def idtxSkipMsg : String :=
  "Cannot compute all indicatrix equations for tan-beta model"

/-- Message of the error raised by the algebra library when an expression
substitution is invoked with None instead of a mapping (the fate of
.subs(parameters) in prep_geodesic_eqns when parameters is None). -/
def subsNoneMsg : String :=
  "When a single argument is passed to subs it should be a dictionary of old: new pairs or an iterable of (old, new) tuples."

/-- Message of the lookup error raised by set_ibc_eqns when the configured
boundary-profile name is not a key of boundary_eqns. -/
def ibcKeyMsg : String := "KeyError: unknown ibc type"

/-- define_varphi_model_eqn: select the flow-model closure.  The ramp
variant takes the pure power-law closure; the ramp-flat variant takes the
logistic-integral closure when mu = 1/2 and the generalized smoothed
closure otherwise; any other variant name raises ValueError. -/
def define_varphi_model_eqn (varphi_type : String) (mu : ℚ) :
    Except String VarphiModel :=
  if varphi_type = "ramp" then Except.ok VarphiModel.ramp
  else if varphi_type = "ramp-flat" then
    Except.ok (if mu = 1 / 2 then VarphiModel.rampflat else VarphiModel.rampflatmu)
  else Except.error unknownFlowModelMsg

/-- define_tanbeta_eqns: the stationary-point equations are always
assigned; tanbeta_alpha_eqn is first set to None and computed only outside
the sine-model eta = 1 singularity, which is skipped with a printed
diagnostic. -/
def define_tanbeta_eqns (cfg : Config) (st : EqnState) : EqnState :=
  let st1 := { st with beta_at_alpha_extremum_eqn := some ()
                       beta_at_alpha_extremum_numerical_eqn := some ()
                       tanbeta_alpha_eqn := none }
  if cfg.eta = 1 ∧ cfg.betaType = BetaType.sin then
    { st1 with diagnostics := st1.diagnostics ++ [tanbetaSkipMsg] }
  else
    { st1 with tanbeta_alpha_eqn := some () }

/-- define_g_eqns: all six attributes are first reset to None; the dual
metric and its determinant are then computed; the primal metric and the
eigendecomposition are computed only outside the sine-model eta = 1
singularity, which is skipped with a printed diagnostic after the dual
metric and determinant have already been assigned. -/
def define_g_eqns (cfg : Config) (st : EqnState) : EqnState :=
  let st1 := { st with gstar_varphi_pxpz_eqn := none
                       det_gstar_varphi_pxpz_eqn := none
                       g_varphi_pxpz_eqn := none
                       gstar_eigen_varphi_pxpz := none
                       gstar_eigenvalues := none
                       gstar_eigenvectors := none }
  let st2 := { st1 with gstar_varphi_pxpz_eqn := some ()
                        det_gstar_varphi_pxpz_eqn := some () }
  if cfg.eta = 1 ∧ cfg.betaType = BetaType.sin then
    { st2 with diagnostics := st2.diagnostics ++ [gSkipMsg] }
  else
    { st2 with g_varphi_pxpz_eqn := some ()
               gstar_eigen_varphi_pxpz := some ()
               gstar_eigenvalues := some ()
               gstar_eigenvectors := some () }

/-- define_idtx_fgtx_eqns: pz_cosbeta_varphi_eqn and the candidate root
list are computed first; the remaining outputs are reset to None and are
computed only outside the tan-model eta in 1/4, 3/2 guard, which is
skipped with a printed diagnostic. -/
def define_idtx_fgtx_eqns (cfg : Config) (st : EqnState) : EqnState :=
  let st1 := { st with pz_cosbeta_varphi_eqn := some ()
                       cosbetasqrd_pz_varphi_solns := none
                       cosbetasqrd_pz_varphi_soln := none
                       fgtx_cossqrdbeta_pz_varphi_eqn := none
                       fgtx_tanbeta_pz_varphi_eqn := none
                       fgtx_px_pz_varphi_eqn := none
                       idtx_rdotx_pz_varphi_eqn := none
                       idtx_rdotz_pz_varphi_eqn := none }
  let st2 := { st1 with cosbetasqrd_pz_varphi_solns := some () }
  if (cfg.eta = 1 / 4 ∨ cfg.eta = 3 / 2) ∧ cfg.betaType = BetaType.tan then
    { st2 with diagnostics := st2.diagnostics ++ [idtxSkipMsg] }
  else
    { st2 with cosbetasqrd_pz_varphi_soln := some ()
               fgtx_cossqrdbeta_pz_varphi_eqn := some ()
               fgtx_tanbeta_pz_varphi_eqn := some ()
               fgtx_px_pz_varphi_eqn := some ()
               idtx_rdotx_pz_varphi_eqn := some ()
               idtx_rdotz_pz_varphi_eqn := some () }

/-- prep_geodesic_eqns: all ten attributes are reset to None; the stage is
skipped with a printed diagnostic for the sine model with eta >= 1;
otherwise the matrices in terms of tan(beta) and tan(alpha) are computed
and the assignment of gstar_ij_mat applies .subs(parameters), which raises
in the algebra library when the parameter mapping is None (the guard that
would have returned early in that case is commented out in the source). -/
def prep_geodesic_eqns (cfg : Config) (params : Option ParamSub) (st : EqnState) :
    Except String EqnState :=
  let st1 := { st with gstar_ij_tanbeta_mat := none
                       g_ij_tanbeta_mat := none
                       tanbeta_poly_eqn := none
                       tanbeta_eqn := none
                       gstar_ij_tanalpha_mat := none
                       gstar_ij_mat := none
                       g_ij_tanalpha_mat := none
                       g_ij_mat := none
                       g_ij_mat_lambdified := none
                       gstar_ij_mat_lambdified := none }
  if 1 ≤ cfg.eta ∧ cfg.betaType = BetaType.sin then
    Except.ok { st1 with diagnostics := st1.diagnostics ++ [geodesicSkipMsg] }
  else
    let st2 := { st1 with gstar_ij_tanbeta_mat := some ()
                          g_ij_tanbeta_mat := some ()
                          tanbeta_poly_eqn := some ()
                          tanbeta_eqn := some ()
                          gstar_ij_tanalpha_mat := some () }
    match params with
    | none => Except.error subsNoneMsg
    | some _ =>
      Except.ok { st2 with gstar_ij_mat := some ()
                           g_ij_tanalpha_mat := some ()
                           g_ij_mat := some ()
                           g_ij_mat_lambdified := some ()
                           gstar_ij_mat_lambdified := some () }

/-- define_geodesic_eqns: all six attributes are reset to None; the stage
is skipped with the same printed diagnostic for the sine model with
eta >= 1; otherwise the Christoffel coefficients, the geodesic ODEs and
the two numeric callables are assigned. -/
def define_geodesic_eqns (cfg : Config) (st : EqnState) : EqnState :=
  let st1 := { st with dg_rk_ij_mat := none
                       christoffel_ij_k_rx_rdot_lambda := none
                       christoffel_ij_k_lambda := none
                       geodesic_eqns := none
                       vdotx_lambdified := none
                       vdotz_lambdified := none }
  if 1 ≤ cfg.eta ∧ cfg.betaType = BetaType.sin then
    { st1 with diagnostics := st1.diagnostics ++ [geodesicSkipMsg] }
  else
    { st1 with dg_rk_ij_mat := some ()
               christoffel_ij_k_rx_rdot_lambda := some ()
               christoffel_ij_k_lambda := some ()
               geodesic_eqns := some ()
               vdotx_lambdified := some ()
               vdotz_lambdified := some () }

/-- define_px_poly_eqn: both polynomial attributes are assigned (the
eta <= 1 branch only changes the extraction method, not availability). -/
def define_px_poly_eqn (st : EqnState) : EqnState :=
  { st with poly_px_xiv_varphi_eqn := some ()
            poly_px_xiv0_eqn := some () }

/-- prep_ibc_eqns: assigns the boundary slowness relation and the
normalization identity. -/
def prep_ibc_eqns (st : EqnState) : EqnState :=
  { st with pz0_xiv0_eqn := some ()
            pzpx_unity_eqn := some () }

/-- define_ibc_eqns: assigns the dictionary of the three boundary-profile
families. -/
def define_ibc_eqns (st : EqnState) : EqnState :=
  { st with boundary_eqns := some () }

/-- set_ibc_eqns: looks the configured profile up in boundary_eqns, which
raises a lookup error for a name other than the three defined families,
and otherwise assigns the initial-condition equations. -/
def set_ibc_eqns (cfg : Config) (st : EqnState) : Except String EqnState :=
  if cfg.ibcType = "planar" ∨ cfg.ibcType = "convex-up" ∨ cfg.ibcType = "concave-up" then
    Except.ok { st with rz_initial_eqn := some ()
                        tanbeta_initial_eqn := some ()
                        p_initial_eqn := some ()
                        px_initial_eqn := some ()
                        pz_initial_eqn := some () }
  else Except.error ibcKeyMsg

/-- The constructor pipeline of the Equations class: the ordered stage
sequence of the source, with the do_nothing early return, the optional
indicatrix and geodesic stages, and the raw-mode forcing of the geodesic
parameter mapping to None.  The early kinematic and erosion-model stages
assign unconditionally and are not tracked in the availability record. -/
def construct (cfg : Config) : Except String EqnState :=
  if cfg.do_nothing then Except.ok initState
  else
    match define_varphi_model_eqn cfg.varphiType cfg.mu with
    | Except.error e => Except.error e
    | Except.ok m =>
      let st0 : EqnState := { initState with varphi_rx_eqn := some m }
      let st1 := define_tanbeta_eqns cfg st0
      let st2 := define_g_eqns cfg st1
      let st3 := if cfg.do_idtx then define_idtx_fgtx_eqns cfg st2 else st2
      match (if cfg.do_geodesic then
               prep_geodesic_eqns cfg (if cfg.do_raw then none else cfg.parameters) st3
             else Except.ok st3) with
      | Except.error e => Except.error e
      | Except.ok st4 =>
        let st5 := if cfg.do_geodesic then define_geodesic_eqns cfg st4 else st4
        let st6 := define_px_poly_eqn st5
        let st7 := prep_ibc_eqns st6
        let st8 := define_ibc_eqns st7
        set_ibc_eqns cfg st8

/-- Whether construction ran to completion (no stage raised). -/
def isComplete (e : Except String EqnState) : Bool :=
  match e with
  | Except.ok _ => true
  | Except.error _ => false

/-- The equation store a completed construction built (the empty store for
an aborted construction, which callers must discard). -/
def finalState (e : Except String EqnState) : EqnState :=
  match e with
  | Except.ok st => st
  | Except.error _ => initState

/-- The geodesic preparation ended with every attribute left in the
explicit not-available state, the skip diagnostic printed and no raised
error (the outcome the specification requires when the parameter mapping
is missing). -/
def geodesicPrepSkipped (res : Except String EqnState) : Prop :=
  ∃ st, res = Except.ok st ∧
    st.gstar_ij_tanbeta_mat = none ∧ st.g_ij_tanbeta_mat = none ∧
    st.tanbeta_poly_eqn = none ∧ st.tanbeta_eqn = none ∧
    st.gstar_ij_tanalpha_mat = none ∧ st.gstar_ij_mat = none ∧
    st.g_ij_tanalpha_mat = none ∧ st.g_ij_mat = none ∧
    st.g_ij_mat_lambdified = none ∧ st.gstar_ij_mat_lambdified = none ∧
    geodesicSkipMsg ∈ st.diagnostics

/-- Configuration used to witness the degenerate geodesic skip: the
documented defaults (eta = 3/2, sine model) with geodesics requested. -/
def cfgEta32SinGeo : Config := { do_geodesic := true }

/-- Configuration with eta = 1/2 and the tangent model, outside the
geodesic skip guard. -/
def cfgHalfTan : Config := { eta := 1 / 2, betaType := BetaType.tan }

/-- Configuration refuting the claim that a missing geodesic parameter
mapping is always handled by leaving the stage unavailable: eta = 1/2 with
the sine model, geodesics requested in raw mode. -/
def cfgC4 : Config :=
  { eta := 1 / 2, betaType := BetaType.sin, do_geodesic := true,
    do_raw := true, parameters := some [] }

/-- Configuration with eta = 3/2 and the sine model, indicatrix requested:
the documented default configuration plus do_idtx. -/
def cfgIdtxSin32 : Config := { eta := 3 / 2, betaType := BetaType.sin, do_idtx := true }

/-- Configuration with eta = 1 and the sine model, geodesics requested. -/
def cfgEta1SinGeo : Config :=
  { eta := 1, betaType := BetaType.sin, do_geodesic := true }

/-! ## Theorems -/

/-- C1: for every configuration of the engine (any flow-model closure
phiFun, any abstract flow value, any eta and any slowness and position
values), the stored right-hand side of pdotz_pxpz_eqn is identically
zero: the slowness-rate z component vanishes, reflecting translational
symmetry of the erosion model along the downstream axis. -/
theorem pdotz_identically_zero (phiFun : ℝ → ℝ) (varphi_r η px pz rxv : ℝ) :
    pdotz_pxpz_rhs phiFun varphi_r η px pz rxv = 0 := by
  unfold pdotz_pxpz_rhs
  rw [zero_mul, zero_mul, zero_mul, zero_div]

/-- C5: the flow-model stage selects the ramp closure for the ramp
variant; for the ramp-flat variant it selects the logistic-integral
closure exactly when mu = 1/2 and the generalized smoothed closure for
any other mu; any other variant string raises the configuration error,
which aborts construction. -/
theorem varphi_model_selection :
    (∀ m : ℚ, define_varphi_model_eqn "ramp" m = Except.ok VarphiModel.ramp) ∧
    (define_varphi_model_eqn "ramp-flat" (1 / 2) = Except.ok VarphiModel.rampflat) ∧
    (∀ m : ℚ, m ≠ 1 / 2 →
      define_varphi_model_eqn "ramp-flat" m = Except.ok VarphiModel.rampflatmu) ∧
    (∀ (s : String) (m : ℚ), s ≠ "ramp" → s ≠ "ramp-flat" →
      define_varphi_model_eqn s m = Except.error unknownFlowModelMsg) ∧
    (∀ cfg : Config, cfg.do_nothing = false → cfg.varphiType ≠ "ramp" →
      cfg.varphiType ≠ "ramp-flat" → construct cfg = Except.error unknownFlowModelMsg) := by
  refine ⟨fun m => rfl, ?_, fun m hm => ?_, fun s m hs1 hs2 => ?_, fun cfg h0 h1 h2 => ?_⟩
  · unfold define_varphi_model_eqn
    rw [if_neg (by decide), if_pos rfl, if_pos rfl]
  · unfold define_varphi_model_eqn
    rw [if_neg (by decide), if_pos rfl, if_neg hm]
  · simp [define_varphi_model_eqn, hs1, hs2]
  · have he : define_varphi_model_eqn cfg.varphiType cfg.mu
        = Except.error unknownFlowModelMsg := by
      simp [define_varphi_model_eqn, h1, h2]
    unfold construct
    rw [if_neg (by simp [h0]), he]

/-- C5 witness: concrete instances of each selection branch. -/
theorem varphi_model_selection_witness :
    define_varphi_model_eqn "ramp" (3 / 4) = Except.ok VarphiModel.ramp ∧
    ((3 : ℚ) / 4 ≠ 1 / 2 ∧
      define_varphi_model_eqn "ramp-flat" (3 / 4) = Except.ok VarphiModel.rampflatmu) ∧
    (("sine" : String) ≠ "ramp" ∧ ("sine" : String) ≠ "ramp-flat" ∧
      define_varphi_model_eqn "sine" (3 / 4) = Except.error unknownFlowModelMsg) ∧
    construct { varphiType := "sine" } = Except.error unknownFlowModelMsg :=
  ⟨varphi_model_selection.1 (3 / 4),
   ⟨by norm_num, varphi_model_selection.2.2.1 (3 / 4) (by norm_num)⟩,
   ⟨by decide, by decide,
    varphi_model_selection.2.2.2.1 "sine" (3 / 4) (by decide) (by decide)⟩,
   varphi_model_selection.2.2.2.2 { varphiType := "sine" } rfl (by decide) (by decide)⟩

/-- C6 counterexample: with no stationary-point candidate at all, the
engine records the sentinel 0 but prints no diagnostic, so the claimed
conjunction (sentinel recorded and a diagnostic emitted) fails. -/
theorem beta_extremum_empty_counterexample :
    ¬((selectBetaExtremum []).1 = extremumSentinel ∧
      (selectBetaExtremum []).2 ≠ []) := by
  decide

/-- C6 amended: with no candidate root at all the engine records the
sentinel 0 and emits no diagnostic; the warning diagnostic is emitted
only in the branch where candidates exist but none is real and positive,
and that branch records the first candidate, not the sentinel. -/
theorem beta_extremum_branches :
    selectBetaExtremum [] = (extremumSentinel, []) ∧
    (∀ (c : ExtremumCandidate) (cs : List ExtremumCandidate),
      (c :: cs).filter (fun d => decide (d.im = 0 ∧ 0 < d.re)) = [] →
      selectBetaExtremum (c :: cs) = (c, [betaExtremumWarning])) := by
  refine ⟨rfl, fun c cs h => ?_⟩
  simp only [selectBetaExtremum, h]

/-- C6 witness: a single non-positive real candidate is filtered out, so
the first candidate is recorded together with the warning. -/
theorem beta_extremum_branches_witness :
    selectBetaExtremum [{ re := -1, im := 0 }]
      = ({ re := -1, im := 0 }, [betaExtremumWarning]) :=
  beta_extremum_branches.2 { re := -1, im := 0 } [] (by decide)

/-- C7 counterexample: on a candidate list whose first root is real only
at the middle probe 0.01 and whose second root is real at all three
probes, the selection the source implements (real at at least one probe)
differs from the selection the claim describes (real at the probe values
0, 0.01 and 1). -/
theorem tanbeta_root_selection_counterexample :
    selectTanbetaRoot
        [{ im0 := 1, im001 := 0, im1 := 1 }, { im0 := 0, im001 := 0, im1 := 0 }]
      ≠ selectTanbetaRootClaim
        [{ im0 := 1, im001 := 0, im1 := 1 }, { im0 := 0, im001 := 0, im1 := 0 }] := by
  decide

/-- C7 amended: the stored root of tanbeta_alpha_eqn is the first returned
algebraic root whose numeric evaluation is real at at least one of the
probe values tan(alpha) = 0, 0.01, 1 (tested in that order), not
necessarily at all of them. -/
theorem tanbeta_root_selection (solns : List TanbetaRoot) :
    selectTanbetaRoot solns = solns.find? tanbetaRootTest := by
  unfold selectTanbetaRoot
  induction solns with
  | nil => rfl
  | cons a t ih =>
    by_cases h : tanbetaRootTest a
    · simp [List.filter_cons, List.find?_cons, h]
    · simp [List.filter_cons, List.find?_cons, h, ih]

/-- C10: with eta = 1 and the sine tilt model, the metric stage computes
the dual metric and its determinant before the skip guard fires, so both
remain available while the primal metric and the eigendecomposition are
left unavailable and the diagnostic is printed. -/
theorem g_eqns_eta1_sin_order (cfg : Config) (st : EqnState)
    (h1 : cfg.eta = 1) (h2 : cfg.betaType = BetaType.sin) :
    (define_g_eqns cfg st).gstar_varphi_pxpz_eqn = some () ∧
    (define_g_eqns cfg st).det_gstar_varphi_pxpz_eqn = some () ∧
    (define_g_eqns cfg st).g_varphi_pxpz_eqn = none ∧
    (define_g_eqns cfg st).gstar_eigen_varphi_pxpz = none ∧
    (define_g_eqns cfg st).gstar_eigenvalues = none ∧
    (define_g_eqns cfg st).gstar_eigenvectors = none ∧
    gSkipMsg ∈ (define_g_eqns cfg st).diagnostics := by
  unfold define_g_eqns
  rw [if_pos ⟨h1, h2⟩]
  exact ⟨rfl, rfl, rfl, rfl, rfl, rfl, by simp⟩

/-- C10 witness: the degenerate metric stage evaluated on the empty store
with eta = 1 and the sine model. -/
theorem g_eqns_eta1_sin_order_witness :
    (define_g_eqns { eta := 1, betaType := BetaType.sin } initState).gstar_varphi_pxpz_eqn = some () ∧
    (define_g_eqns { eta := 1, betaType := BetaType.sin } initState).det_gstar_varphi_pxpz_eqn = some () ∧
    (define_g_eqns { eta := 1, betaType := BetaType.sin } initState).g_varphi_pxpz_eqn = none ∧
    (define_g_eqns { eta := 1, betaType := BetaType.sin } initState).gstar_eigen_varphi_pxpz = none ∧
    (define_g_eqns { eta := 1, betaType := BetaType.sin } initState).gstar_eigenvalues = none ∧
    (define_g_eqns { eta := 1, betaType := BetaType.sin } initState).gstar_eigenvectors = none ∧
    gSkipMsg ∈ (define_g_eqns { eta := 1, betaType := BetaType.sin } initState).diagnostics :=
  g_eqns_eta1_sin_order { eta := 1, betaType := BetaType.sin } initState rfl rfl

/-- C4 counterexample: constructing with eta = 1/2, the sine model and
raw-mode geodesics (so the parameter mapping passed to the geodesic
preparation is None) does not leave the geodesic stages unavailable: the
substitution with a missing mapping raises and construction aborts. -/
theorem geodesic_none_params_counterexample :
    construct cfgC4 = Except.error subsNoneMsg := by
  norm_num [construct, cfgC4, define_varphi_model_eqn, define_tanbeta_eqns,
    define_g_eqns, prep_geodesic_eqns, initState]

/-- C4 amended: with a missing parameter mapping the geodesic preparation
leaves every geodesic attribute unavailable, with no lambdified functions
and only a printed diagnostic, exactly when the sine-model eta >= 1 skip
guard fires; in every other configuration it raises the substitution
error, aborting construction. -/
theorem geodesic_none_params (cfg : Config) (st : EqnState) :
    (1 ≤ cfg.eta ∧ cfg.betaType = BetaType.sin →
      geodesicPrepSkipped (prep_geodesic_eqns cfg none st)) ∧
    (¬(1 ≤ cfg.eta ∧ cfg.betaType = BetaType.sin) →
      prep_geodesic_eqns cfg none st = Except.error subsNoneMsg) := by
  constructor
  · intro h
    unfold prep_geodesic_eqns
    rw [if_pos h]
    exact ⟨_, rfl, rfl, rfl, rfl, rfl, rfl, rfl, rfl, rfl, rfl, rfl, by simp⟩
  · intro h
    unfold prep_geodesic_eqns
    rw [if_neg h]

/-- C4 witness: the skip branch at the documented defaults (eta = 3/2,
sine model) and the raising branch at eta = 1/2 with the tangent model. -/
theorem geodesic_none_params_witness :
    geodesicPrepSkipped (prep_geodesic_eqns cfgEta32SinGeo none initState) ∧
    prep_geodesic_eqns cfgHalfTan none initState = Except.error subsNoneMsg :=
  ⟨(geodesic_none_params cfgEta32SinGeo initState).1 ⟨by norm_num [cfgEta32SinGeo], rfl⟩,
   (geodesic_none_params cfgHalfTan initState).2
     (fun h => absurd h.2 (by decide))⟩

/-- C9 counterexample: with the sine tilt model and eta = 3/2 the
indicatrix stage is not skipped: its outputs are computed and no
diagnostic is printed, contrary to the claimed sine-model eta >= 1
exclusion. -/
theorem idtx_sin_eta32_counterexample :
    (define_idtx_fgtx_eqns cfgIdtxSin32 initState).fgtx_px_pz_varphi_eqn = some () ∧
    (define_idtx_fgtx_eqns cfgIdtxSin32 initState).idtx_rdotz_pz_varphi_eqn = some () ∧
    (define_idtx_fgtx_eqns cfgIdtxSin32 initState).diagnostics = [] := by
  have h : ¬((cfgIdtxSin32.eta = 1 / 4 ∨ cfgIdtxSin32.eta = 3 / 2)
      ∧ cfgIdtxSin32.betaType = BetaType.tan) := by
    intro hx
    exact absurd hx.2 (by simp [cfgIdtxSin32])
  unfold define_idtx_fgtx_eqns
  rw [if_neg h]
  exact ⟨rfl, rfl, rfl⟩

/-- C9 amended: the indicatrix root is selected by probing all candidate
roots at (varphi = 1, pz = -0.01) with a fallback probe at
(varphi = 10, pz = -0.5) when nothing passes the first; the stage leaves
its outputs undefined with a diagnostic exactly for the tangent model
with eta in 1/4 or 3/2, and in particular proceeds for the sine model. -/
theorem idtx_guard_and_probe :
    (∀ (cfg : Config) (st : EqnState),
      (cfg.eta = 1 / 4 ∨ cfg.eta = 3 / 2) → cfg.betaType = BetaType.tan →
      (define_idtx_fgtx_eqns cfg st).fgtx_cossqrdbeta_pz_varphi_eqn = none ∧
      (define_idtx_fgtx_eqns cfg st).fgtx_tanbeta_pz_varphi_eqn = none ∧
      (define_idtx_fgtx_eqns cfg st).fgtx_px_pz_varphi_eqn = none ∧
      (define_idtx_fgtx_eqns cfg st).idtx_rdotx_pz_varphi_eqn = none ∧
      (define_idtx_fgtx_eqns cfg st).idtx_rdotz_pz_varphi_eqn = none ∧
      idtxSkipMsg ∈ (define_idtx_fgtx_eqns cfg st).diagnostics) ∧
    (∀ (cfg : Config) (st : EqnState),
      ¬((cfg.eta = 1 / 4 ∨ cfg.eta = 3 / 2) ∧ cfg.betaType = BetaType.tan) →
      (define_idtx_fgtx_eqns cfg st).fgtx_cossqrdbeta_pz_varphi_eqn = some () ∧
      (define_idtx_fgtx_eqns cfg st).fgtx_px_pz_varphi_eqn = some () ∧
      (define_idtx_fgtx_eqns cfg st).idtx_rdotz_pz_varphi_eqn = some ()) ∧
    (∀ solns : List IdtxRoot, solns.filter idtx_probe1 ≠ [] →
      find_cosbetasqrd_root solns = solns.filter idtx_probe1) ∧
    (∀ solns : List IdtxRoot, solns.filter idtx_probe1 = [] →
      find_cosbetasqrd_root solns = solns.filter idtx_probe2) := by
  refine ⟨fun cfg st h1 h2 => ?_, fun cfg st h => ?_, fun solns h => ?_, fun solns h => ?_⟩
  · unfold define_idtx_fgtx_eqns
    rw [if_pos ⟨h1, h2⟩]
    exact ⟨rfl, rfl, rfl, rfl, rfl, by simp⟩
  · unfold define_idtx_fgtx_eqns
    rw [if_neg h]
    exact ⟨rfl, rfl, rfl⟩
  · unfold find_cosbetasqrd_root
    rw [if_neg h]
  · unfold find_cosbetasqrd_root
    rw [if_pos h]

/-- C9 witness: the skip branch at (tangent model, eta = 1/4), the
proceed branch at (sine model, eta = 3/2), a primary-probe success and a
fallback-probe selection. -/
theorem idtx_guard_and_probe_witness :
    ((define_idtx_fgtx_eqns { eta := 1 / 4, betaType := BetaType.tan, do_idtx := true }
        initState).fgtx_cossqrdbeta_pz_varphi_eqn = none ∧
     (define_idtx_fgtx_eqns { eta := 1 / 4, betaType := BetaType.tan, do_idtx := true }
        initState).fgtx_tanbeta_pz_varphi_eqn = none ∧
     (define_idtx_fgtx_eqns { eta := 1 / 4, betaType := BetaType.tan, do_idtx := true }
        initState).fgtx_px_pz_varphi_eqn = none ∧
     (define_idtx_fgtx_eqns { eta := 1 / 4, betaType := BetaType.tan, do_idtx := true }
        initState).idtx_rdotx_pz_varphi_eqn = none ∧
     (define_idtx_fgtx_eqns { eta := 1 / 4, betaType := BetaType.tan, do_idtx := true }
        initState).idtx_rdotz_pz_varphi_eqn = none ∧
     idtxSkipMsg ∈ (define_idtx_fgtx_eqns { eta := 1 / 4, betaType := BetaType.tan, do_idtx := true }
        initState).diagnostics) ∧
    ((define_idtx_fgtx_eqns cfgIdtxSin32 initState).fgtx_cossqrdbeta_pz_varphi_eqn = some () ∧
     (define_idtx_fgtx_eqns cfgIdtxSin32 initState).fgtx_px_pz_varphi_eqn = some () ∧
     (define_idtx_fgtx_eqns cfgIdtxSin32 initState).idtx_rdotz_pz_varphi_eqn = some ()) ∧
    find_cosbetasqrd_root [{ im1 := 0, re1 := 1, im2 := 0, re2 := 0 }]
      = [{ im1 := 0, re1 := 1, im2 := 0, re2 := 0 }] ∧
    find_cosbetasqrd_root [{ im1 := 1, re1 := 1, im2 := 0, re2 := 2 }]
      = [{ im1 := 1, re1 := 1, im2 := 0, re2 := 2 }] := by
  have hp1 : idtx_probe1 { im1 := 0, re1 := 1, im2 := 0, re2 := 0 } = true := by
    simp only [idtx_probe1, idtxTol, decide_eq_true_eq]
    norm_num
  have hf1 : List.filter idtx_probe1 [({ im1 := 0, re1 := 1, im2 := 0, re2 := 0 } : IdtxRoot)]
      = [{ im1 := 0, re1 := 1, im2 := 0, re2 := 0 }] := by
    simp [List.filter_cons, hp1]
  have hq1 : idtx_probe1 { im1 := 1, re1 := 1, im2 := 0, re2 := 2 } = false := by
    simp only [idtx_probe1, idtxTol, decide_eq_false_iff_not]
    norm_num
  have hq2 : idtx_probe2 { im1 := 1, re1 := 1, im2 := 0, re2 := 2 } = true := by
    simp only [idtx_probe2, idtxTol, decide_eq_true_eq]
    norm_num
  have hg1 : List.filter idtx_probe1 [({ im1 := 1, re1 := 1, im2 := 0, re2 := 2 } : IdtxRoot)]
      = [] := by
    simp [List.filter_cons, hq1]
  have hg2 : List.filter idtx_probe2 [({ im1 := 1, re1 := 1, im2 := 0, re2 := 2 } : IdtxRoot)]
      = [{ im1 := 1, re1 := 1, im2 := 0, re2 := 2 }] := by
    simp [List.filter_cons, hq2]
  refine ⟨?_, ?_, ?_, ?_⟩
  · exact idtx_guard_and_probe.1 { eta := 1 / 4, betaType := BetaType.tan, do_idtx := true }
      initState (Or.inl rfl) rfl
  · refine idtx_guard_and_probe.2.1 cfgIdtxSin32 initState ?_
    intro hx
    exact absurd hx.2 (by simp [cfgIdtxSin32])
  · rw [idtx_guard_and_probe.2.2.1 _ (by rw [hf1]; exact fun hx => List.noConfusion hx), hf1]
  · rw [idtx_guard_and_probe.2.2.2 _ hg1, hg2]

/-- C8: with eta = 1 and the sine tilt model (and any otherwise valid
configuration), construction completes with no uncaught failure: the
degenerate stages print their diagnostics and leave the primal metric,
the eigendecomposition outputs, the tan-beta inversion and the geodesic
structures in the explicit not-available state, while the later
independent stages (polynomial normal form, boundary conditions) still
run and assign their outputs. -/
theorem construct_eta1_sin_completes (cfg : Config)
    (h1 : cfg.eta = 1) (h2 : cfg.betaType = BetaType.sin)
    (h3 : cfg.varphiType = "ramp" ∨ cfg.varphiType = "ramp-flat")
    (h4 : cfg.ibcType = "planar" ∨ cfg.ibcType = "convex-up" ∨ cfg.ibcType = "concave-up")
    (h5 : cfg.do_nothing = false) :
    isComplete (construct cfg) = true ∧
    (finalState (construct cfg)).g_varphi_pxpz_eqn = none ∧
    (finalState (construct cfg)).gstar_eigen_varphi_pxpz = none ∧
    (finalState (construct cfg)).gstar_eigenvalues = none ∧
    (finalState (construct cfg)).gstar_eigenvectors = none ∧
    (finalState (construct cfg)).tanbeta_alpha_eqn = none ∧
    (finalState (construct cfg)).g_ij_mat = none ∧
    (finalState (construct cfg)).g_ij_mat_lambdified = none ∧
    (finalState (construct cfg)).geodesic_eqns = none ∧
    (finalState (construct cfg)).vdotx_lambdified = none ∧
    (finalState (construct cfg)).vdotz_lambdified = none ∧
    tanbetaSkipMsg ∈ (finalState (construct cfg)).diagnostics ∧
    gSkipMsg ∈ (finalState (construct cfg)).diagnostics ∧
    (finalState (construct cfg)).poly_px_xiv_varphi_eqn = some () ∧
    (finalState (construct cfg)).rz_initial_eqn = some () := by
  obtain ⟨eta, mu, bt, vt, ibc, raw, idtx, geo, noth, params⟩ := cfg
  dsimp only at h1 h2 h3 h4 h5
  subst h1; subst h2; subst h5
  have hrf : ("ramp-flat" = "ramp") = False := eq_false (by decide)
  rcases h3 with h3 | h3 <;> subst h3 <;>
    rcases h4 with h4 | h4 | h4 <;> subst h4 <;>
      cases idtx <;> cases geo <;>
        norm_num [hrf, construct, isComplete, finalState, define_varphi_model_eqn,
          define_tanbeta_eqns, define_g_eqns, define_idtx_fgtx_eqns,
          prep_geodesic_eqns, define_geodesic_eqns, define_px_poly_eqn,
          prep_ibc_eqns, define_ibc_eqns, set_ibc_eqns, initState]

/-- C8 witness: the complete construction at eta = 1, sine model, ramp
flow, convex-up boundary, with geodesics requested. -/
theorem construct_eta1_sin_completes_witness :
    isComplete (construct cfgEta1SinGeo) = true ∧
    (finalState (construct cfgEta1SinGeo)).g_varphi_pxpz_eqn = none ∧
    (finalState (construct cfgEta1SinGeo)).gstar_eigen_varphi_pxpz = none ∧
    (finalState (construct cfgEta1SinGeo)).gstar_eigenvalues = none ∧
    (finalState (construct cfgEta1SinGeo)).gstar_eigenvectors = none ∧
    (finalState (construct cfgEta1SinGeo)).tanbeta_alpha_eqn = none ∧
    (finalState (construct cfgEta1SinGeo)).g_ij_mat = none ∧
    (finalState (construct cfgEta1SinGeo)).g_ij_mat_lambdified = none ∧
    (finalState (construct cfgEta1SinGeo)).geodesic_eqns = none ∧
    (finalState (construct cfgEta1SinGeo)).vdotx_lambdified = none ∧
    (finalState (construct cfgEta1SinGeo)).vdotz_lambdified = none ∧
    tanbetaSkipMsg ∈ (finalState (construct cfgEta1SinGeo)).diagnostics ∧
    gSkipMsg ∈ (finalState (construct cfgEta1SinGeo)).diagnostics ∧
    (finalState (construct cfgEta1SinGeo)).poly_px_xiv_varphi_eqn = some () ∧
    (finalState (construct cfgEta1SinGeo)).rz_initial_eqn = some () :=
  construct_eta1_sin_completes cfgEta1SinGeo rfl rfl (Or.inl rfl)
    (Or.inr (Or.inl rfl)) rfl

/-- Helper: the stored Hamiltonian is the square of the stored fundamental
function over two, for px > 0. -/
theorem H_is_Fstar_sq (varphi η px pz : ℝ) (hpx : 0 < px) :
    H_rhs varphi η px pz = Fstar_rhs varphi η px pz ^ 2 / 2 := by
  have hS : (0 : ℝ) < px ^ 2 + pz ^ 2 := by positivity
  unfold H_rhs Fstar_rhs
  have e1 : px ^ (2 * η) = px ^ η * px ^ η := by
    rw [two_mul, Real.rpow_add hpx]
  have e2 : (px ^ 2 + pz ^ 2) ^ (1 - η)
      = (px ^ 2 + pz ^ 2) ^ ((1 : ℝ) / 2 - η / 2)
        * (px ^ 2 + pz ^ 2) ^ ((1 : ℝ) / 2 - η / 2) := by
    rw [← Real.rpow_add hS]
    congr 1
    ring
  rw [e1, e2]
  ring

/-- Helper: the stored ray-velocity x component is the px derivative of
the stored Hamiltonian, for px > 0. -/
theorem rdotx_hasDerivAt (varphi η px pz : ℝ) (hpx : 0 < px) :
    HasDerivAt (fun q : ℝ => H_rhs varphi η q pz)
      (rdotx_pxpz_rhs varphi η px pz) px := by
  have hS : (0 : ℝ) < px ^ 2 + pz ^ 2 := by positivity
  have h1 : HasDerivAt (fun q : ℝ => q ^ (2 * η)) (2 * η * px ^ (2 * η - 1)) px :=
    Real.hasDerivAt_rpow_const (Or.inl hpx.ne')
  have h2 : HasDerivAt (fun q : ℝ => q ^ 2 + pz ^ 2) (2 * px) px := by
    simpa using (hasDerivAt_pow 2 px).add_const (pz ^ 2)
  have h3 : HasDerivAt (fun q : ℝ => (q ^ 2 + pz ^ 2) ^ (1 - η))
      (2 * px * (1 - η) * (px ^ 2 + pz ^ 2) ^ (1 - η - 1)) px :=
    h2.rpow_const (Or.inl hS.ne')
  have h4 := ((h1.mul h3).mul_const (varphi ^ 2)).div_const 2
  have hfun : (fun q : ℝ => H_rhs varphi η q pz)
      = fun q : ℝ => q ^ (2 * η) * (q ^ 2 + pz ^ 2) ^ (1 - η) * varphi ^ 2 / 2 := rfl
  rw [hfun]
  convert h4 using 1
  have ea : px ^ (2 * η) = px ^ (2 * η - 1) * px := by
    nth_rewrite 1 [show 2 * η = 2 * η - 1 + 1 by ring]
    rw [Real.rpow_add hpx, Real.rpow_one]
  have eb : (px ^ 2 + pz ^ 2) ^ (1 - η)
      = (px ^ 2 + pz ^ 2) ^ (-η) * (px ^ 2 + pz ^ 2) := by
    nth_rewrite 1 [show (1 : ℝ) - η = -η + 1 by ring]
    rw [Real.rpow_add hS, Real.rpow_one]
  have ec : (px ^ 2 + pz ^ 2) ^ (1 - η - 1) = (px ^ 2 + pz ^ 2) ^ (-η) := by
    congr 1
    ring
  unfold rdotx_pxpz_rhs
  rw [ea, eb, ec]
  ring

/-- Helper: the stored ray-velocity z component is the pz derivative of
the stored Hamiltonian, for px > 0. -/
theorem rdotz_hasDerivAt (varphi η px pz : ℝ) (hpx : 0 < px) :
    HasDerivAt (fun q : ℝ => H_rhs varphi η px q)
      (rdotz_pxpz_rhs varphi η px pz) pz := by
  have hS : (0 : ℝ) < px ^ 2 + pz ^ 2 := by positivity
  have h2 : HasDerivAt (fun q : ℝ => px ^ 2 + q ^ 2) (2 * pz) pz := by
    simpa using (hasDerivAt_pow 2 pz).const_add (px ^ 2)
  have h3 : HasDerivAt (fun q : ℝ => (px ^ 2 + q ^ 2) ^ (1 - η))
      (2 * pz * (1 - η) * (px ^ 2 + pz ^ 2) ^ (1 - η - 1)) pz :=
    h2.rpow_const (Or.inl hS.ne')
  have h4 := ((HasDerivAt.const_mul (px ^ (2 * η)) h3).mul_const (varphi ^ 2)).div_const 2
  have hfun : (fun q : ℝ => H_rhs varphi η px q)
      = fun q : ℝ => px ^ (2 * η) * (px ^ 2 + q ^ 2) ^ (1 - η) * varphi ^ 2 / 2 := rfl
  rw [hfun]
  convert h4 using 1
  have ec : (px ^ 2 + pz ^ 2) ^ (1 - η - 1) = (px ^ 2 + pz ^ 2) ^ (-η) := by
    congr 1
    ring
  unfold rdotz_pxpz_rhs
  rw [ec]
  ring

/-- Helper: the absolute value raised to an even negative multiple equals
the square raised to the corresponding power, for every base. -/
theorem abs_rpow_even (a q : ℝ) : |q| ^ (-(2 * a)) = (q ^ 2) ^ (-a) := by
  rw [show -(2 * a) = 2 * -a by ring, Real.rpow_mul (abs_nonneg q)]
  congr 1
  rw [show (2 : ℝ) = ((2 : ℕ) : ℝ) by norm_num, Real.rpow_natCast, sq_abs]

/-- Helper: the stored tangent-model Hamiltonian is the square of the
stored tangent-model fundamental function over two, for px > 0 and
pz nonzero. -/
theorem H_tan_is_Fstar_sq (varphi η px pz : ℝ) (hpx : 0 < px) (hpz : pz ≠ 0) :
    H_tan_rhs varphi η px pz = Fstar_tan_rhs varphi η px pz ^ 2 / 2 := by
  have hS : (0 : ℝ) < px ^ 2 + pz ^ 2 := by positivity
  have hpzpos : (0 : ℝ) < |pz| := abs_pos.mpr hpz
  unfold H_tan_rhs Fstar_tan_rhs
  have e1 : px ^ (2 * η) = px ^ η * px ^ η := by
    rw [two_mul, Real.rpow_add hpx]
  have e2 : |pz| ^ (-(2 * η)) = |pz| ^ (-η) * |pz| ^ (-η) := by
    rw [show -(2 * η) = -η + -η by ring, Real.rpow_add hpzpos]
  rw [e1, e2, mul_pow, mul_pow, mul_pow, Real.sq_sqrt hS.le]
  ring

/-- Helper: the stored tangent-model ray-velocity x component is the px
derivative of the stored tangent-model Hamiltonian, for px > 0. -/
theorem rdotx_tan_hasDerivAt (varphi η px pz : ℝ) (hpx : 0 < px) :
    HasDerivAt (fun q : ℝ => H_tan_rhs varphi η q pz)
      (rdotx_tan_pxpz_rhs varphi η px pz) px := by
  have h1 : HasDerivAt (fun q : ℝ => q ^ (2 * η)) (2 * η * px ^ (2 * η - 1)) px :=
    Real.hasDerivAt_rpow_const (Or.inl hpx.ne')
  have h2 : HasDerivAt (fun q : ℝ => q ^ 2 + pz ^ 2) (2 * px) px := by
    simpa using (hasDerivAt_pow 2 px).add_const (pz ^ 2)
  have h4 := (((h1.mul h2).mul_const (|pz| ^ (-(2 * η)))).mul_const (varphi ^ 2)).div_const 2
  have hfun : (fun q : ℝ => H_tan_rhs varphi η q pz)
      = fun q : ℝ => q ^ (2 * η) * (q ^ 2 + pz ^ 2) * |pz| ^ (-(2 * η)) * varphi ^ 2 / 2 := rfl
  rw [hfun]
  convert h4 using 1
  have ea : px ^ (2 * η) = px ^ (2 * η - 1) * px := by
    nth_rewrite 1 [show 2 * η = 2 * η - 1 + 1 by ring]
    rw [Real.rpow_add hpx, Real.rpow_one]
  unfold rdotx_tan_pxpz_rhs
  rw [ea]
  ring

/-- Helper: the stored tangent-model ray-velocity z component is the pz
derivative of the stored tangent-model Hamiltonian, for px > 0 and pz
nonzero (the absolute-value factor is differentiated through the
square-based representation). -/
theorem rdotz_tan_hasDerivAt (varphi η px pz : ℝ) (hpz : pz ≠ 0) :
    HasDerivAt (fun q : ℝ => H_tan_rhs varphi η px q)
      (rdotz_tan_pxpz_rhs varphi η px pz) pz := by
  have hq2 : (pz ^ 2 : ℝ) ≠ 0 := pow_ne_zero 2 hpz
  have hfun : (fun q : ℝ => H_tan_rhs varphi η px q)
      = fun q : ℝ => px ^ (2 * η) * ((px ^ 2 + q ^ 2) * (q ^ 2 : ℝ) ^ (-η)) * varphi ^ 2 / 2 := by
    funext q
    unfold H_tan_rhs
    rw [abs_rpow_even η q]
    ring
  rw [hfun]
  have h2 : HasDerivAt (fun q : ℝ => (q ^ 2 : ℝ)) (2 * pz) pz := by
    simpa using hasDerivAt_pow 2 pz
  have h3 : HasDerivAt (fun q : ℝ => (q ^ 2 : ℝ) ^ (-η))
      (2 * pz * -η * (pz ^ 2 : ℝ) ^ (-η - 1)) pz := h2.rpow_const (Or.inl hq2)
  have h2b : HasDerivAt (fun q : ℝ => px ^ 2 + q ^ 2) (2 * pz) pz := by
    simpa using (hasDerivAt_pow 2 pz).const_add (px ^ 2)
  have h6 := ((HasDerivAt.const_mul (px ^ (2 * η)) (h2b.mul h3)).mul_const (varphi ^ 2)).div_const 2
  convert h6 using 1
  have hq2pos : (0 : ℝ) < pz ^ 2 := lt_of_le_of_ne (sq_nonneg pz) (Ne.symm hq2)
  have eb : |pz| ^ (-(2 * η + 2)) = (pz ^ 2 : ℝ) ^ (-η - 1) := by
    rw [show -(2 * η + 2) = -(2 * (η + 1)) by ring, abs_rpow_even (η + 1) pz]
    congr 1
    ring
  have ec : (pz ^ 2 : ℝ) ^ (-η) = (pz ^ 2 : ℝ) ^ (-η - 1) * pz ^ 2 := by
    nth_rewrite 1 [show -η = -η - 1 + 1 by ring]
    rw [Real.rpow_add hq2pos, Real.rpow_one]
  unfold rdotz_tan_pxpz_rhs
  rw [eb, ec]
  ring

/-- C3: for both tilt models, the stored Hamiltonian H_eqn equals Fstar
squared over two for the stored fundamental function, and the stored
ray-velocity equations rdotx_pxpz_eqn and rdotz_pxpz_eqn equal the
partial derivatives of that Hamiltonian with respect to px and pz, for
every eta and flow value, on the px > 0 branch the engine works in (the
px >= 0 convention with the degenerate px = 0 edge excluded); the
tangent-model identities additionally require pz nonzero, away from the
singular horizontal-normal point of the tangent closure. -/
theorem H_rdot_consistency (varphi η px pz : ℝ) (hpx : 0 < px) :
    (H_rhs varphi η px pz = Fstar_rhs varphi η px pz ^ 2 / 2 ∧
     deriv (fun q : ℝ => H_rhs varphi η q pz) px = rdotx_pxpz_rhs varphi η px pz ∧
     deriv (fun q : ℝ => H_rhs varphi η px q) pz = rdotz_pxpz_rhs varphi η px pz) ∧
    (pz ≠ 0 →
     H_tan_rhs varphi η px pz = Fstar_tan_rhs varphi η px pz ^ 2 / 2 ∧
     deriv (fun q : ℝ => H_tan_rhs varphi η q pz) px = rdotx_tan_pxpz_rhs varphi η px pz ∧
     deriv (fun q : ℝ => H_tan_rhs varphi η px q) pz = rdotz_tan_pxpz_rhs varphi η px pz) :=
  ⟨⟨H_is_Fstar_sq varphi η px pz hpx,
    (rdotx_hasDerivAt varphi η px pz hpx).deriv,
    (rdotz_hasDerivAt varphi η px pz hpx).deriv⟩,
   fun hpz =>
    ⟨H_tan_is_Fstar_sq varphi η px pz hpx hpz,
     (rdotx_tan_hasDerivAt varphi η px pz hpx).deriv,
     (rdotz_tan_hasDerivAt varphi η px pz hpz).deriv⟩⟩

/-- C3 witness: the consistency identities of both tilt models at
varphi = 1, eta = 1, px = 1, pz = -1. -/
theorem H_rdot_consistency_witness :
    (0 : ℝ) < 1 ∧
    (H_rhs 1 1 1 (-1) = Fstar_rhs 1 1 1 (-1) ^ 2 / 2 ∧
     deriv (fun q : ℝ => H_rhs 1 1 q (-1)) 1 = rdotx_pxpz_rhs 1 1 1 (-1) ∧
     deriv (fun q : ℝ => H_rhs 1 1 1 q) (-1) = rdotz_pxpz_rhs 1 1 1 (-1)) ∧
    ((-1 : ℝ) ≠ 0 ∧
     (H_tan_rhs 1 1 1 (-1) = Fstar_tan_rhs 1 1 1 (-1) ^ 2 / 2 ∧
      deriv (fun q : ℝ => H_tan_rhs 1 1 q (-1)) 1 = rdotx_tan_pxpz_rhs 1 1 1 (-1) ∧
      deriv (fun q : ℝ => H_tan_rhs 1 1 1 q) (-1) = rdotz_tan_pxpz_rhs 1 1 1 (-1))) :=
  ⟨by norm_num, (H_rdot_consistency 1 1 1 (-1) (by norm_num)).1,
   by norm_num, (H_rdot_consistency 1 1 1 (-1) (by norm_num)).2 (by norm_num)⟩

/-- Helper: the normalization identity for the sine-model stored forms
under the sine-model closure. -/
theorem rdot_p_unity_sin (varphi η px pz : ℝ) (hpx0 : 0 ≤ px) (hη : η ≠ 0)
    (hnz : ¬(px = 0 ∧ pz = 0))
    (hc : p_varphi_pxpz_holds varphi η px pz) :
    px * rdotx_pxpz_rhs varphi η px pz + pz * rdotz_pxpz_rhs varphi η px pz = 1 := by
  unfold p_varphi_pxpz_holds at hc
  have hpx : 0 < px := by
    rcases hpx0.lt_or_eq with h | h
    · exact h
    · exfalso
      have hpz : pz ≠ 0 := fun hz => hnz ⟨h.symm, hz⟩
      rw [← h] at hc
      rw [Real.zero_rpow hη, mul_zero, div_zero] at hc
      have h2 : (0 : ℝ) < pz ^ 2 :=
        lt_of_le_of_ne (sq_nonneg pz) (Ne.symm (pow_ne_zero 2 hpz))
      have hpos : 0 < Real.sqrt ((0 : ℝ) ^ 2 + pz ^ 2) :=
        Real.sqrt_pos.mpr (by simpa using h2)
      exact hpos.ne' hc
  have hS : (0 : ℝ) < px ^ 2 + pz ^ 2 := by positivity
  set s := Real.sqrt (px ^ 2 + pz ^ 2) with hs_def
  have hs : 0 < s := Real.sqrt_pos.mpr hS
  have hφ : varphi ≠ 0 := by
    intro h0
    rw [h0, zero_mul, div_zero] at hc
    exact hs.ne' hc
  have hD : varphi * px ^ η ≠ 0 :=
    mul_ne_zero hφ (Real.rpow_pos_of_pos hpx η).ne'
  have step3 : s * (varphi * px ^ η) = s ^ η := (eq_div_iff hD).mp hc
  have hss : s * s = px ^ 2 + pz ^ 2 := Real.mul_self_sqrt hS.le
  have key2 : (px ^ 2 + pz ^ 2) ^ η = s ^ η * s ^ η := by
    conv_lhs => rw [← hss]
    exact Real.mul_rpow hs.le hs.le
  have key3 : px ^ (2 * η) = px ^ η * px ^ η := by
    rw [two_mul, Real.rpow_add hpx]
  have key4 : (px ^ 2 + pz ^ 2) * (varphi ^ 2 * px ^ (2 * η))
      = (px ^ 2 + pz ^ 2) ^ η := by
    rw [key2, key3, ← step3, ← hss]
    ring
  have ea : px ^ (2 * η) = px ^ (2 * η - 1) * px := by
    nth_rewrite 1 [show 2 * η = 2 * η - 1 + 1 by ring]
    rw [Real.rpow_add hpx, Real.rpow_one]
  have expand : px * rdotx_pxpz_rhs varphi η px pz + pz * rdotz_pxpz_rhs varphi η px pz
      = ((px ^ 2 + pz ^ 2) * (varphi ^ 2 * (px ^ (2 * η - 1) * px)))
        * (px ^ 2 + pz ^ 2) ^ (-η) := by
    unfold rdotx_pxpz_rhs rdotz_pxpz_rhs
    rw [ea]
    ring
  rw [expand, ← ea, key4, ← Real.rpow_add hS]
  have hη0 : η + -η = 0 := by ring
  rw [hη0, Real.rpow_zero]

/-- Helper: the normalization identity for the tangent-model stored forms
under the tangent-model closure. -/
theorem rdot_p_unity_tan (varphi η px pz : ℝ) (hpx0 : 0 ≤ px) (hη : η ≠ 0)
    (hnz : ¬(px = 0 ∧ pz = 0))
    (hc : p_varphi_pxpz_tan_holds varphi η px pz) :
    px * rdotx_tan_pxpz_rhs varphi η px pz + pz * rdotz_tan_pxpz_rhs varphi η px pz = 1 := by
  unfold p_varphi_pxpz_tan_holds at hc
  have hpx : 0 < px := by
    rcases hpx0.lt_or_eq with h | h
    · exact h
    · exfalso
      have hpz : pz ≠ 0 := fun hz => hnz ⟨h.symm, hz⟩
      rw [← h] at hc
      rw [Real.zero_rpow hη, mul_zero, div_zero] at hc
      have h2 : (0 : ℝ) < pz ^ 2 :=
        lt_of_le_of_ne (sq_nonneg pz) (Ne.symm (pow_ne_zero 2 hpz))
      have hpos : 0 < Real.sqrt ((0 : ℝ) ^ 2 + pz ^ 2) :=
        Real.sqrt_pos.mpr (by simpa using h2)
      exact hpos.ne' hc
  have hpz : pz ≠ 0 := by
    intro h0
    rw [h0, abs_zero, Real.zero_rpow hη, zero_div] at hc
    have hpos : 0 < Real.sqrt (px ^ 2 + (0 : ℝ) ^ 2) :=
      Real.sqrt_pos.mpr (by positivity)
    exact hpos.ne' hc
  have hS : (0 : ℝ) < px ^ 2 + pz ^ 2 := by positivity
  have hpzpos : (0 : ℝ) < |pz| := abs_pos.mpr hpz
  set s := Real.sqrt (px ^ 2 + pz ^ 2) with hs_def
  have hs : 0 < s := Real.sqrt_pos.mpr hS
  have hφ : varphi ≠ 0 := by
    intro h0
    rw [h0, zero_mul, div_zero] at hc
    exact hs.ne' hc
  have hD : varphi * px ^ η ≠ 0 :=
    mul_ne_zero hφ (Real.rpow_pos_of_pos hpx η).ne'
  have step3 : s * (varphi * px ^ η) = |pz| ^ η := (eq_div_iff hD).mp hc
  have hss : s * s = px ^ 2 + pz ^ 2 := Real.mul_self_sqrt hS.le
  have key2 : |pz| ^ (2 * η) = |pz| ^ η * |pz| ^ η := by
    rw [two_mul, Real.rpow_add hpzpos]
  have key3 : px ^ (2 * η) = px ^ η * px ^ η := by
    rw [two_mul, Real.rpow_add hpx]
  have key4 : (px ^ 2 + pz ^ 2) * (varphi ^ 2 * px ^ (2 * η)) = |pz| ^ (2 * η) := by
    rw [key2, key3, ← step3, ← hss]
    ring
  have ea : px ^ (2 * η) = px ^ (2 * η - 1) * px := by
    nth_rewrite 1 [show 2 * η = 2 * η - 1 + 1 by ring]
    rw [Real.rpow_add hpx, Real.rpow_one]
  have epz : |pz| ^ (-(2 * η)) = pz ^ 2 * |pz| ^ (-(2 * η + 2)) := by
    have e1 : |pz| ^ (-(2 * η)) = |pz| ^ (-(2 * η + 2)) * |pz| ^ (2 : ℝ) := by
      rw [← Real.rpow_add hpzpos]
      congr 1
      ring
    rw [e1, show (2 : ℝ) = ((2 : ℕ) : ℝ) by norm_num, Real.rpow_natCast, sq_abs]
    ring
  have expand : px * rdotx_tan_pxpz_rhs varphi η px pz + pz * rdotz_tan_pxpz_rhs varphi η px pz
      = ((px ^ 2 + pz ^ 2) * (varphi ^ 2 * (px ^ (2 * η - 1) * px)))
        * (pz ^ 2 * |pz| ^ (-(2 * η + 2))) := by
    unfold rdotx_tan_pxpz_rhs rdotz_tan_pxpz_rhs
    rw [ea, epz]
    ring
  rw [expand, ← epz, ← ea, key4, ← Real.rpow_add hpzpos]
  have hη0 : 2 * η + -(2 * η) = 0 := by ring
  rw [hη0, Real.rpow_zero]

/-- C2: any (px, pz) with px nonnegative that satisfies the erosion-model
closure stored at stage 4.4 (at some position, with the flow value varphi
taken there, the model exponent being nonzero and the closure being
nondegenerate, which excludes the origin) satisfies the normalization
identity px times v-x plus pz times v-z = 1 exactly for the stored
ray-velocity components, for the sine and the tangent tilt models
alike. -/
theorem rdot_p_unity (varphi η px pz : ℝ) (hpx0 : 0 ≤ px) (hη : η ≠ 0)
    (hnz : ¬(px = 0 ∧ pz = 0)) :
    (p_varphi_pxpz_holds varphi η px pz →
      px * rdotx_pxpz_rhs varphi η px pz + pz * rdotz_pxpz_rhs varphi η px pz = 1) ∧
    (p_varphi_pxpz_tan_holds varphi η px pz →
      px * rdotx_tan_pxpz_rhs varphi η px pz + pz * rdotz_tan_pxpz_rhs varphi η px pz = 1) :=
  ⟨fun hc => rdot_p_unity_sin varphi η px pz hpx0 hη hnz hc,
   fun hc => rdot_p_unity_tan varphi η px pz hpx0 hη hnz hc⟩

/-- C2 witness: the sine-model identity at varphi = 1, eta = 1, px = 1,
pz = 0, and the tangent-model identity at varphi = 4/15, eta = 1, px = 3,
pz = -4, each a point satisfying the respective closure. -/
theorem rdot_p_unity_witness :
    ((0 : ℝ) ≤ 1 ∧ (1 : ℝ) ≠ 0 ∧ ¬((1 : ℝ) = 0 ∧ (0 : ℝ) = 0) ∧
     p_varphi_pxpz_holds 1 1 1 0 ∧
     1 * rdotx_pxpz_rhs 1 1 1 0 + 0 * rdotz_pxpz_rhs 1 1 1 0 = 1) ∧
    ((0 : ℝ) ≤ 3 ∧ ¬((3 : ℝ) = 0 ∧ (-4 : ℝ) = 0) ∧
     p_varphi_pxpz_tan_holds (4 / 15) 1 3 (-4) ∧
     3 * rdotx_tan_pxpz_rhs (4 / 15) 1 3 (-4)
       + (-4) * rdotz_tan_pxpz_rhs (4 / 15) 1 3 (-4) = 1) := by
  have hc1 : p_varphi_pxpz_holds 1 1 1 0 := by
    unfold p_varphi_pxpz_holds
    norm_num [Real.sqrt_one, Real.one_rpow]
  have hc2 : p_varphi_pxpz_tan_holds (4 / 15) 1 3 (-4) := by
    unfold p_varphi_pxpz_tan_holds
    have h25 : Real.sqrt ((3 : ℝ) ^ 2 + (-4 : ℝ) ^ 2) = 5 := by
      rw [show (3 : ℝ) ^ 2 + (-4 : ℝ) ^ 2 = 5 ^ 2 by norm_num,
        Real.sqrt_sq (by norm_num)]
    rw [h25, Real.rpow_one, Real.rpow_one]
    norm_num
  exact ⟨⟨by norm_num, by norm_num, by norm_num, hc1,
          (rdot_p_unity 1 1 1 0 (by norm_num) (by norm_num) (by norm_num)).1 hc1⟩,
         ⟨by norm_num, by norm_num, hc2,
          (rdot_p_unity (4 / 15) 1 3 (-4) (by norm_num) (by norm_num) (by norm_num)).2 hc2⟩⟩

end GME
